import Mathlib

/-!
Shallow embedding of the model-image synthesis slice of imfit_spiral_series
(func1d_gaussian.cpp, func_expdisk3d.h, image_io.cpp) together with proofs of
the specification claims about it.  Machine doubles are modelled as real
numbers; the cfitsio library boundary is modelled by explicit status oracles.
-/

open MeasureTheory

namespace ImfitSpiral

/-! Embedding of func1d_gaussian.cpp (src/unnamed/part_000). -/

def N_PARAMS : ℕ := 2

def emptyLabel : String := ""

def PARAM_LABELS : List String := ["mu_0", "sigma"]

def FUNCTION_NAME : String := "Gaussian-1D function"

def CLASS_SHORT_NAME : String := "Gaussian-1D"

/-- Modelled from the spec: the photometric zero-point `ZP` read by
`Gaussian1D::Setup` is declared in a header that is not under src/; the spec
fixes it as a process-wide scalar with default value 25.0, configured at model
construction and immutable thereafter, so it is embedded as a constant. -/
def ZP : ℝ := 25.0

structure Gaussian1D where
  nParams : ℕ
  functionName : String
  shortFunctionName : String
  parameterLabels : List String
  x0 : ℝ
  mu_0 : ℝ
  sigma : ℝ
  I_0 : ℝ

/-- Constructor `Gaussian1D::Gaussian1D`: sets the arity, names and the label
list (built by the loop over `PARAM_LABELS`).  The data members the C++
constructor leaves uninitialized are modelled as 0. -/
def Gaussian1D.new : Gaussian1D where
  nParams := N_PARAMS
  functionName := FUNCTION_NAME
  shortFunctionName := CLASS_SHORT_NAME
  parameterLabels := (List.range N_PARAMS).map (fun i => PARAM_LABELS.getD i emptyLabel)
  x0 := 0
  mu_0 := 0
  sigma := 0
  I_0 := 0

/-- `Gaussian1D::Setup`: loads x0, mu_0, sigma and precomputes
`I_0 = pow(10.0, 0.4*(ZP - mu_0))`. -/
noncomputable def Gaussian1D.setup (g : Gaussian1D) (params : ℕ → ℝ)
    (offsetIndex : ℕ) (xc : ℝ) : Gaussian1D :=
  { g with
    x0 := xc
    mu_0 := params (0 + offsetIndex)
    sigma := params (1 + offsetIndex)
    I_0 := (10 : ℝ) ^ (0.4 * (ZP - params (0 + offsetIndex))) }

/-- `Gaussian1D::GetValue` in state-passing form: the body assigns only the
locals `scaledDeltaR` and `exponent`, so the returned pair is
(function result, component state after the call). -/
noncomputable def Gaussian1D.getValueS (g : Gaussian1D) (x : ℝ) : ℝ × Gaussian1D :=
  let scaledDeltaR := |x - g.x0| / g.sigma
  let exponent := -(scaledDeltaR * scaledDeltaR) / 2
  (g.I_0 * Real.exp exponent, g)

/-- The value returned by `Gaussian1D::GetValue`. -/
noncomputable def Gaussian1D.getValue (g : Gaussian1D) (x : ℝ) : ℝ :=
  (g.getValueS x).1

/-! Helper lemmas about the Gaussian component. -/

lemma Gaussian1D.getValue_eq (g : Gaussian1D) (x : ℝ) :
    g.getValue x = g.I_0 * Real.exp (-(x - g.x0) ^ 2 / (2 * g.sigma ^ 2)) := by
  simp only [Gaussian1D.getValue, Gaussian1D.getValueS]
  congr 2
  rw [div_mul_div_comm, abs_mul_abs_self]
  ring

lemma ten_rpow_two_eq : (10 : ℝ) ^ (0.4 * (ZP - 20) : ℝ) = 100 := by
  have h : (0.4 * (ZP - 20) : ℝ) = ((2 : ℕ) : ℝ) := by norm_num [ZP]
  rw [h, Real.rpow_natCast]
  norm_num

/-- Claim C1: after `Setup` with center `x0`, surface brightness `mu_0` and
width `sigma`, `GetValue(x)` equals `I_0 * exp(-(x - x0)^2 / (2*sigma^2))`
with `I_0 = 10^(0.4*(ZP - mu_0))`; for `x0 = 16`, `mu_0 = 20`, `sigma = 3`,
`ZP = 25` the value at `x = 16` is `100` and at `x = 19` is `100*exp(-1/2)`. -/
theorem C1_gaussian1d_getValue :
    (∀ (g : Gaussian1D) (p : ℕ → ℝ) (off : ℕ) (xc x : ℝ),
      (g.setup p off xc).getValue x =
        (10 : ℝ) ^ (0.4 * (ZP - p off)) *
          Real.exp (-(x - xc) ^ 2 / (2 * (p (off + 1)) ^ 2))) ∧
    (Gaussian1D.new.setup (fun i => if i = 0 then 20 else 3) 0 16).getValue 16 = 100 ∧
    (Gaussian1D.new.setup (fun i => if i = 0 then 20 else 3) 0 16).getValue 19 =
      100 * Real.exp (-(1 / 2 : ℝ)) := by
  refine ⟨?_, ?_, ?_⟩
  · intro g p off xc x
    rw [Gaussian1D.getValue_eq]
    simp only [Gaussian1D.setup]
    rw [Nat.zero_add, Nat.add_comm 1 off]
  · rw [Gaussian1D.getValue_eq]
    simp only [Gaussian1D.setup, Nat.zero_add, Nat.add_zero, reduceIte]
    rw [ten_rpow_two_eq]
    norm_num [Real.exp_zero]
  · rw [Gaussian1D.getValue_eq]
    simp only [Gaussian1D.setup, Nat.zero_add, Nat.add_zero, reduceIte]
    rw [ten_rpow_two_eq]
    norm_num

/-- Claim C2: the magnitude flux parameter is converted to linear intensity in
`Setup` via `I_0 = 10^(0.4*(ZP - mu))`, with `ZP` the process-wide zero-point
of default value 25.0 (embedded as an immutable constant, per the spec). -/
theorem C2_zero_point_conversion :
    (∀ (g : Gaussian1D) (p : ℕ → ℝ) (off : ℕ) (xc : ℝ),
      (g.setup p off xc).I_0 =
        (10 : ℝ) ^ (0.4 * (ZP - (g.setup p off xc).mu_0))) ∧
    ZP = 25 := by
  constructor
  · intro g p off xc
    simp only [Gaussian1D.setup]
  · norm_num [ZP]

/-- Claim C4: the Gaussian-1D kind declares `nParams = 2` with ordered labels
`mu_0`, `sigma`; `Setup` sets `mu_0 = params[offset]`,
`sigma = params[offset+1]`, `x0 = xc`, and reads no other element of the
parameter vector (masking every other index leaves the result unchanged). -/
theorem C4_parameter_arity_and_frame :
    Gaussian1D.new.nParams = 2 ∧
    Gaussian1D.new.parameterLabels = ["mu_0", "sigma"] ∧
    (∀ (g : Gaussian1D) (p : ℕ → ℝ) (off : ℕ) (xc : ℝ),
      (g.setup p off xc).mu_0 = p off ∧
      (g.setup p off xc).sigma = p (off + 1) ∧
      (g.setup p off xc).x0 = xc) ∧
    (∀ (g : Gaussian1D) (p : ℕ → ℝ) (off : ℕ) (xc : ℝ),
      g.setup p off xc =
        g.setup
          (fun i => if i = off then p off
            else if i = off + 1 then p (off + 1) else 0) off xc) := by
  refine ⟨rfl, rfl, ?_, ?_⟩
  · intro g p off xc
    refine ⟨?_, ?_, rfl⟩
    · simp [Gaussian1D.setup, Nat.zero_add]
    · simp [Gaussian1D.setup, Nat.add_comm 1 off]
  · intro g p off xc
    have h0 : 0 + off = off := Nat.zero_add off
    have h1 : 1 + off = off + 1 := Nat.add_comm 1 off
    have hne : off + 1 ≠ off := by omega
    simp [Gaussian1D.setup, h0, h1, hne]

/-- Claim C7: after `Setup`, `GetValue` is a pure function of its coordinate
argument: a call leaves the component state unchanged, and a repeated call on
the same input returns the identical value with the state still unchanged. -/
theorem C7_getValue_pure :
    ∀ (g : Gaussian1D) (x : ℝ),
      (g.getValueS x).2 = g ∧
      ((g.getValueS x).2.getValueS x).1 = (g.getValueS x).1 ∧
      ((g.getValueS x).2.getValueS x).2 = g := by
  intro g x
  exact ⟨rfl, rfl, rfl⟩

/-- The Gaussian profile as a function of the radial offset `r = |x - x0|`
alone; `GetValue` factors through it. -/
noncomputable def Gaussian1D.radialProfile (g : Gaussian1D) (r : ℝ) : ℝ :=
  g.I_0 * Real.exp (-(r / g.sigma * (r / g.sigma)) / 2)

/-- Claim C9: `GetValue` depends on `x` only through `|x - x0|`, hence the
profile is symmetric about the center (`GetValue(x0+d) = GetValue(x0-d)`);
moreover `Setup` with `sigma = -s` and with `sigma = s` produce identical
`GetValue` results at every `x`. -/
theorem C9_symmetry :
    (∀ (g : Gaussian1D) (x : ℝ), g.getValue x = g.radialProfile |x - g.x0|) ∧
    (∀ (g : Gaussian1D) (d : ℝ), g.getValue (g.x0 + d) = g.getValue (g.x0 - d)) ∧
    (∀ (g : Gaussian1D) (mu s xc x : ℝ),
      (g.setup (fun i => if i = 0 then mu else -s) 0 xc).getValue x =
        (g.setup (fun i => if i = 0 then mu else s) 0 xc).getValue x) := by
  refine ⟨fun g x => rfl, ?_, ?_⟩
  · intro g d
    show g.radialProfile |g.x0 + d - g.x0| = g.radialProfile |g.x0 - d - g.x0|
    rw [add_sub_cancel_left, sub_sub_cancel_left, abs_neg]
  · intro g mu s xc x
    rw [Gaussian1D.getValue_eq, Gaussian1D.getValue_eq]
    simp only [Gaussian1D.setup, Nat.zero_add, Nat.add_zero]
    norm_num [neg_sq]

/-- Claim C5 counterexample: with the out-of-domain width `sigma = -3`
(center 16, `mu_0 = 20`), `GetValue(19)` is the ordinary strictly positive
Gaussian value `100*exp(-1/2)` — identical to the in-domain `sigma = 3`
result — not a NaN or sentinel. -/
theorem C5_counterexample_negative_sigma :
    (Gaussian1D.new.setup (fun i => if i = 0 then 20 else -3) 0 16).getValue 19 =
      100 * Real.exp (-(1 / 2 : ℝ)) ∧
    (Gaussian1D.new.setup (fun i => if i = 0 then 20 else -3) 0 16).getValue 19 =
      (Gaussian1D.new.setup (fun i => if i = 0 then 20 else 3) 0 16).getValue 19 ∧
    0 < (Gaussian1D.new.setup (fun i => if i = 0 then 20 else -3) 0 16).getValue 19 := by
  have hval :
      (Gaussian1D.new.setup (fun i => if i = 0 then 20 else -3) 0 16).getValue 19 =
        100 * Real.exp (-(1 / 2 : ℝ)) := by
    rw [Gaussian1D.getValue_eq]
    simp only [Gaussian1D.setup, Nat.zero_add, Nat.add_zero, reduceIte]
    rw [ten_rpow_two_eq]
    norm_num
  refine ⟨hval, ?_, ?_⟩
  · rw [hval, Gaussian1D.getValue_eq]
    simp only [Gaussian1D.setup, Nat.zero_add, Nat.add_zero, reduceIte]
    rw [ten_rpow_two_eq]
    norm_num
  · rw [hval]
    positivity

/-- Claim C5, amended: the Gaussian-1D component performs no domain check on
`sigma`: for `sigma < 0` both `Setup` and `GetValue` proceed with the ordinary
formulas, and `GetValue` returns the same strictly positive Gaussian value as
with the in-domain width `-sigma` at every `x` — never a NaN or sentinel. -/
theorem C5_amended_no_domain_check (g : Gaussian1D) (mu s xc x : ℝ)
    (_hs : s < 0) :
    0 < (g.setup (fun i => if i = 0 then mu else s) 0 xc).getValue x ∧
    (g.setup (fun i => if i = 0 then mu else s) 0 xc).getValue x =
      (g.setup (fun i => if i = 0 then mu else -s) 0 xc).getValue x := by
  constructor
  · rw [Gaussian1D.getValue_eq]
    simp only [Gaussian1D.setup]
    exact mul_pos (Real.rpow_pos_of_pos (by norm_num) _) (Real.exp_pos _)
  · rw [Gaussian1D.getValue_eq, Gaussian1D.getValue_eq]
    simp only [Gaussian1D.setup, Nat.zero_add, Nat.add_zero]
    norm_num [neg_sq]

/-- Witness for the amended claim C5 at the concrete out-of-domain input
`sigma = -3`. -/
theorem C5_amended_witness :
    0 < (Gaussian1D.new.setup (fun i => if i = 0 then 20 else -3) 0 16).getValue 19 :=
  (C5_amended_no_domain_check Gaussian1D.new 20 (-3) 16 19 (by norm_num)).1

/-! Embedding of image_io.cpp (inside src/unit_tests/unittest_image_io.t.h).
The cfitsio library boundary is modelled by an oracle giving the status each
primitive call would report, and by the documented cfitsio conventions:
a FITS image holds `NAXIS1 * NAXIS2` pixels in row-major order with NAXIS1
varying fastest (lower-left pixel first), and a nonzero status passed into a
cfitsio call makes it a no-op that returns that status unchanged. -/

/-- Result of running a function under the exit-on-error convention: either a
normal return value, or process termination through `exit(status)`. -/
inductive Outcome (α : Type) where
  | ok (val : α)
  | exited (status : ℤ)

/-- `PrintError`: reports and calls `exit(status)` when `status` is nonzero,
returns normally otherwise. -/
def printError (status : ℤ) : Outcome Unit :=
  if status ≠ 0 then Outcome.exited status else Outcome.ok ()

/-- A FITS image file: the NAXIS1/NAXIS2 keywords and the pixel array,
`pix i j` being the pixel in (0-indexed) column `i` and row `j`. -/
structure FitsImage where
  naxis1 : ℕ
  naxis2 : ℕ
  pix : ℕ → ℕ → ℝ

/-- Oracle for one run of `ReadImageAsVector`: the image in the file and the
status each cfitsio call reports. -/
structure FitsReadFile where
  img : FitsImage
  openStatus : ℤ
  readKeysStatus : ℤ
  readPixStatus : ℤ
  closeStatus : ℤ

/-- cfitsio model: `fits_read_pix` starting at pixel (1,1) delivers `nPixels`
values in FITS order — NAXIS1 varying fastest — so flat index `k` holds the
pixel in column `k % NAXIS1`, row `k / NAXIS1`. -/
def fitsReadPixVector (img : FitsImage) (nPixels : ℕ) : List ℝ :=
  (List.range nPixels).map (fun k => img.pix (k % img.naxis1) (k / img.naxis1))

/-- `ReadImageAsVector`: opens the file, reads NAXIS1/NAXIS2, reads the pixel
array, closes the file; each failing step calls `PrintError`, which exits. -/
def readImageAsVector (f : FitsReadFile) : Outcome (List ℝ × ℕ × ℕ) :=
  if f.openStatus ≠ 0 then Outcome.exited f.openStatus
  else if f.readKeysStatus ≠ 0 then Outcome.exited f.readKeysStatus
  else
    let n_columns := f.img.naxis1
    let n_rows := f.img.naxis2
    let nPixelsTot := n_columns * n_rows
    let imageVector := fitsReadPixVector f.img nPixelsTot
    if f.readPixStatus ≠ 0 then Outcome.exited f.readPixStatus
    else if f.closeStatus ≠ 0 then Outcome.exited f.closeStatus
    else Outcome.ok (imageVector, n_columns, n_rows)

/-- cfitsio status chaining: a call reached with a nonzero status is a no-op
returning that status; otherwise it reports its own status. -/
def cfStep (cur fresh : ℤ) : ℤ := if cur ≠ 0 then cur else fresh

/-- Oracle for one run of `SaveVectorAsImage`: `conv` is the conversion cfitsio
applies to each double when writing the single-precision (FLOAT_IMG) image;
the other fields are the status each cfitsio call would freshly report. -/
structure FitsWriteEnv where
  conv : ℝ → ℝ
  createStat : ℤ
  createImgStat : ℤ
  commentStat : ℕ → ℤ
  dateStat : ℤ
  writePixStat : ℤ
  closeStat : ℤ

/-- `SaveVectorAsImage`: creates the file, creates a FLOAT_IMG primary image,
writes the comments and the DATE keyword (statuses chained, unchecked), writes
the pixel array and closes the file (both checked, failing through
`PrintError`).  On success the written file is returned as the observable
effect: pixel (i, j) holds `conv` applied to `pixelVector[j*nColumns + i]`. -/
def saveVectorAsImage (pixelVector : ℕ → ℝ) (filename : String)
    (nColumns nRows : ℕ) (comments : List String) (e : FitsWriteEnv) :
    Outcome FitsImage :=
  let s1 := cfStep 0 e.createStat
  let s2 := cfStep s1 e.createImgStat
  let s3 := (List.range comments.length).foldl
    (fun c i => cfStep c (e.commentStat i)) s2
  let s4 := cfStep s3 e.dateStat
  let problems := cfStep s4 e.writePixStat
  if problems ≠ 0 then Outcome.exited problems
  else
    let s6 := cfStep problems e.closeStat
    if s6 ≠ 0 then Outcome.exited s6
    else Outcome.ok
      { naxis1 := nColumns
        naxis2 := nRows
        pix := fun i j => e.conv (pixelVector (j * nColumns + i)) }

/-- Claim C6: the I/O boundary follows an exit-on-error convention:
`PrintError` terminates through `exit(status)` exactly when its status is
nonzero; `ReadImageAsVector` returns normally precisely when file open,
keyword read, pixel read and file close all succeed, and any failure among
them ends in process exit with a nonzero status; `SaveVectorAsImage` likewise
either succeeds or exits with a nonzero status — neither function ever
returns an error kind to the caller. -/
theorem C6_exit_on_error :
    (∀ s : ℤ, printError s = if s = 0 then Outcome.ok () else Outcome.exited s) ∧
    (∀ f : FitsReadFile,
      ((f.openStatus = 0 ∧ f.readKeysStatus = 0 ∧ f.readPixStatus = 0 ∧
          f.closeStatus = 0) ∧
        readImageAsVector f =
          Outcome.ok (fitsReadPixVector f.img (f.img.naxis1 * f.img.naxis2),
            f.img.naxis1, f.img.naxis2)) ∨
      ((f.openStatus ≠ 0 ∨ f.readKeysStatus ≠ 0 ∨ f.readPixStatus ≠ 0 ∨
          f.closeStatus ≠ 0) ∧
        ∃ s, s ≠ 0 ∧ readImageAsVector f = Outcome.exited s)) ∧
    (∀ (v : ℕ → ℝ) (fn : String) (n1 n2 : ℕ) (cs : List String)
        (e : FitsWriteEnv),
      (∃ file, saveVectorAsImage v fn n1 n2 cs e = Outcome.ok file) ∨
      (∃ s, s ≠ 0 ∧ saveVectorAsImage v fn n1 n2 cs e = Outcome.exited s)) := by
  refine ⟨?_, ?_, ?_⟩
  · intro s
    by_cases h : s = 0 <;> simp [printError, h]
  · intro f
    by_cases h1 : f.openStatus = 0
    · by_cases h2 : f.readKeysStatus = 0
      · by_cases h3 : f.readPixStatus = 0
        · by_cases h4 : f.closeStatus = 0
          · exact Or.inl ⟨⟨h1, h2, h3, h4⟩, by
              simp [readImageAsVector, h1, h2, h3, h4]⟩
          · exact Or.inr ⟨Or.inr (Or.inr (Or.inr h4)), f.closeStatus, h4, by
              simp [readImageAsVector, h1, h2, h3, h4]⟩
        · exact Or.inr ⟨Or.inr (Or.inr (Or.inl h3)), f.readPixStatus, h3, by
            simp [readImageAsVector, h1, h2, h3]⟩
      · exact Or.inr ⟨Or.inr (Or.inl h2), f.readKeysStatus, h2, by
          simp [readImageAsVector, h1, h2]⟩
    · exact Or.inr ⟨Or.inl h1, f.openStatus, h1, by
        simp [readImageAsVector, h1]⟩
  · intro v fn n1 n2 cs e
    simp only [saveVectorAsImage]
    split
    · next h => exact Or.inr ⟨_, h, rfl⟩
    · split
      · next h => exact Or.inr ⟨_, h, rfl⟩
      · exact Or.inl ⟨_, rfl⟩

/-! Helper lemmas about the pixel vector delivered by `fits_read_pix`. -/

lemma fitsReadPixVector_length (img : FitsImage) (n : ℕ) :
    (fitsReadPixVector img n).length = n := by
  simp [fitsReadPixVector]

lemma fitsReadPixVector_getD (img : FitsImage) (n k : ℕ) (hk : k < n) :
    (fitsReadPixVector img n).getD k 0 =
      img.pix (k % img.naxis1) (k / img.naxis1) := by
  simp [fitsReadPixVector, List.getD_eq_getElem?_getD, List.getElem?_map,
    List.getElem?_range, hk]

/-- Claim C8: a successful `ReadImageAsVector` returns `nCols` from NAXIS1 and
`nRows` from NAXIS2 and a row-major buffer of `nCols*nRows` doubles in which
pixel (i, j) sits at linear index `j*nCols + i`; in particular the lower-left
pixel is at index 0 and the upper-right pixel at index `nCols*nRows - 1`. -/
theorem C8_row_major_layout (f : FitsReadFile) (v : List ℝ) (n1 n2 : ℕ)
    (h : readImageAsVector f = Outcome.ok (v, n1, n2)) :
    n1 = f.img.naxis1 ∧ n2 = f.img.naxis2 ∧ v.length = n1 * n2 ∧
    (∀ i j, i < n1 → j < n2 → v.getD (j * n1 + i) 0 = f.img.pix i j) ∧
    (0 < n1 → 0 < n2 →
      v.getD 0 0 = f.img.pix 0 0 ∧
      v.getD (n1 * n2 - 1) 0 = f.img.pix (n1 - 1) (n2 - 1)) := by
  have hinv : v = fitsReadPixVector f.img (f.img.naxis1 * f.img.naxis2) ∧
      n1 = f.img.naxis1 ∧ n2 = f.img.naxis2 := by
    simp only [readImageAsVector] at h
    split at h
    · exact Outcome.noConfusion h
    · split at h
      · exact Outcome.noConfusion h
      · split at h
        · exact Outcome.noConfusion h
        · split at h
          · exact Outcome.noConfusion h
          · simp only [Outcome.ok.injEq, Prod.mk.injEq] at h
            exact ⟨h.1.symm, h.2.1.symm, h.2.2.symm⟩
  obtain ⟨hv, hn1, hn2⟩ := hinv
  subst hv
  subst hn1
  subst hn2
  have hmain : ∀ i j, i < f.img.naxis1 → j < f.img.naxis2 →
      (fitsReadPixVector f.img (f.img.naxis1 * f.img.naxis2)).getD
        (j * f.img.naxis1 + i) 0 = f.img.pix i j := by
    intro i j hi hj
    have hpos : 0 < f.img.naxis1 := by omega
    have hk : j * f.img.naxis1 + i < f.img.naxis1 * f.img.naxis2 :=
      calc j * f.img.naxis1 + i < j * f.img.naxis1 + f.img.naxis1 :=
            Nat.add_lt_add_left hi _
        _ = (j + 1) * f.img.naxis1 := by ring
        _ ≤ f.img.naxis2 * f.img.naxis1 :=
            Nat.mul_le_mul_right _ (Nat.succ_le_of_lt hj)
        _ = f.img.naxis1 * f.img.naxis2 := Nat.mul_comm _ _
    rw [fitsReadPixVector_getD _ _ _ hk]
    have hmod : (j * f.img.naxis1 + i) % f.img.naxis1 = i := by
      rw [show j * f.img.naxis1 + i = f.img.naxis1 * j + i from by ring,
        Nat.mul_add_mod, Nat.mod_eq_of_lt hi]
    have hdiv : (j * f.img.naxis1 + i) / f.img.naxis1 = j := by
      rw [show j * f.img.naxis1 + i = f.img.naxis1 * j + i from by ring,
        Nat.mul_add_div hpos, Nat.div_eq_of_lt hi, Nat.add_zero]
    rw [hmod, hdiv]
  refine ⟨rfl, rfl, fitsReadPixVector_length _ _, hmain, ?_⟩
  intro hp1 hp2
  constructor
  · have h00 := hmain 0 0 hp1 hp2
    simpa using h00
  · have hlast := hmain (f.img.naxis1 - 1) (f.img.naxis2 - 1)
      (by omega) (by omega)
    have hidx : (f.img.naxis2 - 1) * f.img.naxis1 + (f.img.naxis1 - 1) =
        f.img.naxis1 * f.img.naxis2 - 1 := by
      obtain ⟨a, ha⟩ : ∃ a, f.img.naxis1 = a + 1 := ⟨f.img.naxis1 - 1, by omega⟩
      obtain ⟨b, hb⟩ : ∃ b, f.img.naxis2 = b + 1 := ⟨f.img.naxis2 - 1, by omega⟩
      rw [ha, hb]
      simp only [Nat.add_sub_cancel]
      rw [show (a + 1) * (b + 1) = (a * b + b + a) + 1 from by ring,
        Nat.add_sub_cancel]
      ring
    rw [hidx] at hlast
    exact hlast

/-- A concrete 2-by-2 image and a fully successful read oracle, used by the
witness for C8. -/
def testImg : FitsImage where
  naxis1 := 2
  naxis2 := 2
  pix := fun i j => (i : ℝ) + 2 * (j : ℝ)

def testReadFile : FitsReadFile where
  img := testImg
  openStatus := 0
  readKeysStatus := 0
  readPixStatus := 0
  closeStatus := 0

/-- Witness for C8 at a concrete successful read of a 2-by-2 image. -/
theorem C8_row_major_layout_witness :
    (fitsReadPixVector testReadFile.img
        (testReadFile.img.naxis1 * testReadFile.img.naxis2)).getD (1 * 2 + 1) 0 =
      testReadFile.img.pix 1 1 :=
  (C8_row_major_layout testReadFile _ 2 2 rfl).2.2.2.1 1 1 (by norm_num)
    (by norm_num)

/-! Round-trip of `SaveVectorAsImage` followed by `ReadImageAsVector`. -/

/-- A write oracle whose cfitsio calls all succeed, writing through the
FLOAT_IMG conversion `conv`. -/
def zeroWriteEnv (conv : ℝ → ℝ) : FitsWriteEnv where
  conv := conv
  createStat := 0
  createImgStat := 0
  commentStat := fun _ => 0
  dateStat := 0
  writePixStat := 0
  closeStat := 0

/-- A read oracle whose cfitsio calls all succeed on the given file. -/
def zeroReadFile (img : FitsImage) : FitsReadFile where
  img := img
  openStatus := 0
  readKeysStatus := 0
  readPixStatus := 0
  closeStatus := 0

/-- The file written by a successful `SaveVectorAsImage`: dimensions as given,
pixel (i, j) holding the FLOAT_IMG conversion of `pixelVector[j*nCols+i]`. -/
def savedImage (v : ℕ → ℝ) (n1 n2 : ℕ) (conv : ℝ → ℝ) : FitsImage where
  naxis1 := n1
  naxis2 := n2
  pix := fun i j => conv (v (j * n1 + i))

lemma cfStep_zero_right (c : ℤ) : cfStep c 0 = c := by
  unfold cfStep
  split <;> omega

lemma foldl_keep (l : List ℕ) (c : ℤ) :
    List.foldl (fun acc (_ : ℕ) => acc) c l = c := by
  induction l generalizing c with
  | nil => rfl
  | cons a t ih =>
      rw [List.foldl_cons]
      exact ih c

lemma saveVectorAsImage_zeroEnv (v : ℕ → ℝ) (fn : String) (n1 n2 : ℕ)
    (cs : List String) (conv : ℝ → ℝ) :
    saveVectorAsImage v fn n1 n2 cs (zeroWriteEnv conv) =
      Outcome.ok (savedImage v n1 n2 conv) := by
  simp only [saveVectorAsImage, zeroWriteEnv, cfStep_zero_right, foldl_keep]
  norm_num [savedImage]

lemma readImageAsVector_zeroFile (img : FitsImage) :
    readImageAsVector (zeroReadFile img) =
      Outcome.ok (fitsReadPixVector img (img.naxis1 * img.naxis2),
        img.naxis1, img.naxis2) := by
  simp [readImageAsVector, zeroReadFile]

lemma fitsReadPixVector_savedImage (v : ℕ → ℝ) (n1 n2 : ℕ) (conv : ℝ → ℝ)
    (k : ℕ) (hk : k < n1 * n2) :
    (fitsReadPixVector (savedImage v n1 n2 conv) (n1 * n2)).getD k 0 =
      conv (v k) := by
  rw [fitsReadPixVector_getD _ _ _ hk]
  simp only [savedImage]
  rw [Nat.div_add_mod']

/-- Claim C10: saving a pixel vector and reading the file back is a round trip
returning the original dimensions exactly, while each pixel value passes
through the single-precision FLOAT_IMG conversion `conv` applied by cfitsio:
the value read back is `conv` of the original, hence accurate only to the
relative accuracy `eps` of that conversion. -/
theorem C10_save_read_roundtrip (v : ℕ → ℝ) (fn : String) (n1 n2 : ℕ)
    (cs : List String) (conv : ℝ → ℝ) (eps : ℝ)
    (hconv : ∀ x : ℝ, |conv x - x| ≤ eps * |x|) :
    saveVectorAsImage v fn n1 n2 cs (zeroWriteEnv conv) =
      Outcome.ok (savedImage v n1 n2 conv) ∧
    readImageAsVector (zeroReadFile (savedImage v n1 n2 conv)) =
      Outcome.ok (fitsReadPixVector (savedImage v n1 n2 conv) (n1 * n2),
        n1, n2) ∧
    (fitsReadPixVector (savedImage v n1 n2 conv) (n1 * n2)).length = n1 * n2 ∧
    ∀ k, k < n1 * n2 →
      (fitsReadPixVector (savedImage v n1 n2 conv) (n1 * n2)).getD k 0 =
        conv (v k) ∧
      |(fitsReadPixVector (savedImage v n1 n2 conv) (n1 * n2)).getD k 0 - v k| ≤
        eps * |v k| := by
  refine ⟨saveVectorAsImage_zeroEnv v fn n1 n2 cs conv,
    readImageAsVector_zeroFile (savedImage v n1 n2 conv),
    fitsReadPixVector_length _ _, ?_⟩
  intro k hk
  have hpix := fitsReadPixVector_savedImage v n1 n2 conv k hk
  refine ⟨hpix, ?_⟩
  rw [hpix]
  exact hconv (v k)

def testName : String := "tinyimage_temp.fits"

/-- Witness for C10 with the identity conversion and zero relative error. -/
theorem C10_save_read_roundtrip_witness :
    (fitsReadPixVector (savedImage (fun k => (k : ℝ)) 2 2 id) (2 * 2)).getD 3 0 =
      id ((fun k => (k : ℝ)) 3) :=
  ((C10_save_read_roundtrip (fun k => (k : ℝ)) testName 2 2 [] id 0
    (by simp)).2.2.2 3 (by norm_num)).1

/-! Embedding of the ExponentialDisk3D component.  Only the class interface
(src/function_objects/func_expdisk3d.h) with its documented parameter layout
is under src/; the method bodies live in func_expdisk3d.cpp, which is not.
The bodies below are therefore modelled from the spec (sections 4.A and 4.B)
on top of the header's parameter layout. -/

structure ExponentialDisk3D where
  x0 : ℝ
  y0 : ℝ
  PA : ℝ
  inclination : ℝ
  I_0 : ℝ
  h : ℝ
  h_z : ℝ
  PA_rad : ℝ
  cosPA : ℝ
  sinPA : ℝ
  inc_rad : ℝ
  cosInc : ℝ
  sinInc : ℝ

/-- Modelled from the spec: `ExponentialDisk3D::Setup` is in
func_expdisk3d.cpp, not under src/.  The parameter layout (PA, inclination,
I_0, h, h_z at offsets 0..4, plus the center) is the header's documented one;
the derived trig quantities follow the spec's canonical Setup pattern (PA and
inclination converted to radians, cosines and sines cached). -/
noncomputable def ExponentialDisk3D.setup (params : ℕ → ℝ) (offsetIndex : ℕ)
    (xc yc : ℝ) : ExponentialDisk3D :=
  let PA := params (0 + offsetIndex)
  let inclination := params (1 + offsetIndex)
  let PA_rad := PA * Real.pi / 180
  let inc_rad := inclination * Real.pi / 180
  { x0 := xc
    y0 := yc
    PA := PA
    inclination := inclination
    I_0 := params (2 + offsetIndex)
    h := params (3 + offsetIndex)
    h_z := params (4 + offsetIndex)
    PA_rad := PA_rad
    cosPA := Real.cos PA_rad
    sinPA := Real.sin PA_rad
    inc_rad := inc_rad
    cosInc := Real.cos inc_rad
    sinInc := Real.sin inc_rad }

/-- The major-axis sky coordinate of pixel (x, y): the offset from the center
rotated by -PA. -/
noncomputable def ExponentialDisk3D.xp (d : ExponentialDisk3D) (x y : ℝ) : ℝ :=
  (x - d.x0) * d.cosPA + (y - d.y0) * d.sinPA

/-- The minor-axis sky coordinate of pixel (x, y). -/
noncomputable def ExponentialDisk3D.yp (d : ExponentialDisk3D) (x y : ℝ) : ℝ :=
  -(x - d.x0) * d.sinPA + (y - d.y0) * d.cosPA

/-- Disk-plane radius of the point at path parameter `s` along the line of
sight through sky point (x, y): the pair (yp, s) rotated by the inclination
gives the in-plane coordinate, combined with the major-axis offset. -/
noncomputable def ExponentialDisk3D.losR (d : ExponentialDisk3D) (x y s : ℝ) : ℝ :=
  Real.sqrt (d.xp x y ^ 2 + (d.yp x y * d.cosInc + s * d.sinInc) ^ 2)

/-- Vertical disk coordinate of the point at path parameter `s` along the line
of sight through sky point (x, y), from the inclination rotation. -/
noncomputable def ExponentialDisk3D.losZ (d : ExponentialDisk3D) (x y s : ℝ) : ℝ :=
  -(d.yp x y) * d.sinInc + s * d.cosInc

/-- Modelled from the spec: the finite symmetric integration interval
`[-L, +L]` of the adaptive line-of-sight quadrature, with
`L = max(8*h_z/|cos i|, 8*h)`. -/
noncomputable def ExponentialDisk3D.integLimit (d : ExponentialDisk3D) : ℝ :=
  max (8 * d.h_z / |d.cosInc|) (8 * d.h)

/-- Modelled from the spec: `ExponentialDisk3D::GetValue` is in
func_expdisk3d.cpp, not under src/.  The value at a sky pixel is the
line-of-sight integral of the luminosity density
`I_0 * exp(-R(s)/h) * exp(-|Z(s)|/h_z)` over the path parameter `s`, the
quadrature being modelled by the exact integral over its interval. -/
noncomputable def ExponentialDisk3D.getValue (d : ExponentialDisk3D)
    (x y : ℝ) : ℝ :=
  ∫ s in Set.Icc (-d.integLimit) d.integLimit,
    d.I_0 * Real.exp (-(d.losR x y s) / d.h) * Real.exp (-|d.losZ x y s| / d.h_z)

/-- Claim C3: `ExponentialDisk3D::Setup` loads PA, inclination, I_0, h, h_z
from `params[offset..offset+4]` plus the center (xc, yc), and `GetValue(x, y)`
is the line-of-sight integral of `I_0 * exp(-R(s)/h) * exp(-|Z(s)|/h_z)` over
the path parameter `s`, with `R(s)` and `Z(s)` derived from the inclination
rotation. -/
theorem C3_expdisk3d_setup_and_integral :
    (∀ (p : ℕ → ℝ) (off : ℕ) (xc yc : ℝ),
      (ExponentialDisk3D.setup p off xc yc).PA = p off ∧
      (ExponentialDisk3D.setup p off xc yc).inclination = p (off + 1) ∧
      (ExponentialDisk3D.setup p off xc yc).I_0 = p (off + 2) ∧
      (ExponentialDisk3D.setup p off xc yc).h = p (off + 3) ∧
      (ExponentialDisk3D.setup p off xc yc).h_z = p (off + 4) ∧
      (ExponentialDisk3D.setup p off xc yc).x0 = xc ∧
      (ExponentialDisk3D.setup p off xc yc).y0 = yc) ∧
    (∀ (d : ExponentialDisk3D) (x y : ℝ),
      d.getValue x y =
        ∫ s in Set.Icc (-(max (8 * d.h_z / |d.cosInc|) (8 * d.h)))
            (max (8 * d.h_z / |d.cosInc|) (8 * d.h)),
          d.I_0 *
            Real.exp
              (-(Real.sqrt (((x - d.x0) * d.cosPA + (y - d.y0) * d.sinPA) ^ 2 +
                ((-(x - d.x0) * d.sinPA + (y - d.y0) * d.cosPA) * d.cosInc +
                  s * d.sinInc) ^ 2)) / d.h) *
            Real.exp
              (-|(-((-(x - d.x0) * d.sinPA + (y - d.y0) * d.cosPA)) * d.sinInc +
                s * d.cosInc)| / d.h_z)) := by
  constructor
  · intro p off xc yc
    refine ⟨?_, ?_, ?_, ?_, ?_, rfl, rfl⟩ <;>
      simp [ExponentialDisk3D.setup, Nat.zero_add, Nat.add_comm]
  · intro d x y
    rfl

end ImfitSpiral
